import Mathlib

/-!
Shallow embedding of the TechGear support chatbot core
(src/graph_workflow.py and src/rag_pipeline.py).

The generative model and the vector store are external capabilities; they are
embedded as function-valued oracles.  Every function that may invoke the
generative model also returns the list of prompts it sent to it, so that
"the model is never invoked on this path" is expressible as that list being
empty.  Relevance scores, compared only with `≥` in the source, are embedded
as rationals.
-/

namespace TechGearSpec

/-- Anchored comparison of character lists: whether the first list occurs at
the start of the second.  Building block for the Python substring operator. -/
def charsStartWith : List Char → List Char → Bool
  | [], _ => true
  | _ :: _, [] => false
  | a :: as, b :: bs => a == b && charsStartWith as bs

/-- Occurrence of the needle anywhere in the haystack, as character lists. -/
def charsContain (needle : List Char) : List Char → Bool
  | [] => charsStartWith needle []
  | c :: cs => charsStartWith needle (c :: cs) || charsContain needle cs

/-- Models the Python expression `needle in haystack` on strings. -/
def strContains (haystack needle : String) : Bool :=
  charsContain needle.toList haystack.toList

/-- Models Python `str.lower()` (ASCII case folding, as in the source's
keyword and category strings). -/
def strToLower (s : String) : String :=
  ⟨s.data.map Char.toLower⟩

/-- Drops leading whitespace characters from a character list. -/
def dropLeadingWs : List Char → List Char
  | [] => []
  | c :: cs => if c.isWhitespace then dropLeadingWs cs else c :: cs

/-- Models Python `str.strip()`: removes leading and trailing whitespace. -/
def strTrim (s : String) : String :=
  ⟨((dropLeadingWs ((dropLeadingWs s.data).reverse)).reverse)⟩

/-- Workflow state dictionary `GraphState` of src/graph_workflow.py. -/
structure GraphState where
  query : String
  history : String
  category : String
  response : String
deriving DecidableEq, Repr

/-- Conversation turn `{"sender": ..., "text": ...}` accepted by `run`. -/
structure Msg where
  sender : String
  text : String
deriving DecidableEq, Repr

/-- Retrieved document; only `page_content` is read by the embedded code. -/
structure Doc where
  page_content : String
deriving DecidableEq, Repr, Inhabited

/-- Rule-phase keyword list of `classify_query`
(src/graph_workflow.py lines 54-59). -/
def out_of_scope_keywords : List String :=
  ["lawsuit", "legal", "sue", "court", "lawyer",
   "broken screen", "repair my", "fix my device",
   "payment failed", "payment error", "charged twice",
   "spam", "abuse", "hate", "scam"]

/-- Valid categories accepted after the model phase
(src/graph_workflow.py line 90). -/
def valid_categories : List String :=
  ["products", "returns", "general", "escalate"]

/-- The classification prompt of src/graph_workflow.py lines 69-85, with the
query substituted for the template variable. -/
def classification_prompt (query : String) : String :=
  "You are a query classifier for TechGear Electronics customer support.\nClassify the following customer query into EXACTLY ONE of these categories:\n- \"products\": Questions about product features, prices, specifications, warranty\n- \"returns\": Questions about return policy, refunds, return process\n- \"general\": Questions about support hours, contact information, general inquiries\n- \"escalate\": Complex issues, complaints, payment problems, device repairs not in knowledge base, abusive messages, or unclear queries\n\nOutput ONLY the category name, nothing else.\n\nQuery: " ++ query ++ "\n\nCategory:"

/-- Node 1 of the workflow: `classify_query` (src/graph_workflow.py lines
40-97).  `llm` is the classifier model oracle.  Returns the updated state and
the list of prompts sent to the generative model. -/
def classify_query (llm : String → String) (st : GraphState) :
    GraphState × List String :=
  let query := st.query
  let query_lower := strToLower query
  if out_of_scope_keywords.any (fun keyword => strContains query_lower keyword) then
    ({ st with category := "escalate" }, [])
  else
    let prompt_text := classification_prompt query
    let result := llm prompt_text
    let category := strToLower (strTrim result)
    let category := if category ∈ valid_categories then category else "escalate"
    ({ st with category := category }, [prompt_text])

/-- Relevance gate threshold 0.4, src/rag_pipeline.py line 28. -/
def RELEVANCE_THRESHOLD : ℚ := mkRat 4 10

/-- RAG pipeline state: the vector store (an oracle answering a question with
the ranked, scored top-k candidates of `similarity_search_with_relevance_scores`)
and the generative model, each `none` until initialized
(src/rag_pipeline.py lines 34-38). -/
structure RAGPipeline where
  vectorstore : Option (String → List (Doc × ℚ))
  llm : Option (String → String)

/-- The reliability check of src/rag_pipeline.py lines 178-181,
`len(docs_with_scores) > 0 and docs_with_scores[0][1] >= RELEVANCE_THRESHOLD`,
with the threshold constant abstracted as a parameter. -/
def has_reliable_context (threshold : ℚ) (docs_with_scores : List (Doc × ℚ)) : Bool :=
  decide (0 < docs_with_scores.length) && decide (threshold ≤ (docs_with_scores.headI).2)

/-- Retrieval with the reliability gate: `retrieve_with_scores`
(src/rag_pipeline.py lines 157-192).  Fails when the vector store was never
initialized; otherwise returns the retrieved documents and the gate verdict. -/
def retrieve_with_scores (p : RAGPipeline) (question : String) :
    Except String (List Doc × Bool) :=
  match p.vectorstore with
  | none => .error "Vector store not initialized."
  | some store =>
    let docs_with_scores := store question
    let reliable := has_reliable_context RELEVANCE_THRESHOLD docs_with_scores
    let docs := docs_with_scores.map (fun ds => ds.1)
    .ok (docs, reliable)

/-- Fallback answer returned when the gate rejects (src/rag_pipeline.py
lines 214-217). -/
def fallback_message : String :=
  "I don\x27t have specific information about that in TechGear\x27s knowledge base. Please contact support@techgear.com for more details."

/-- The RAG answer prompt of src/rag_pipeline.py lines 140-153, with context
and question substituted for the template variables. -/
def rag_prompt (context question : String) : String :=
  "You are a helpful customer support assistant for TechGear Electronics.\nUse the following context to answer the customer\x27s question accurately and professionally.\nIf you don\x27t know the answer based on the context, say so politely.\n\nContext: " ++ context ++ "\n\nQuestion: " ++ question ++ "\n\nAnswer:"

/-- The answering step: `answer_with_rag` (src/rag_pipeline.py lines
194-233).  Fails when the model was never initialized; otherwise retrieves,
gates, and either returns the fallback without a model call or prompts the
generative model.  The second component of the result is the list of prompts
sent to the generative model. -/
def answer_with_rag (p : RAGPipeline) (question : String) (history : String) :
    Except String (String × List String) :=
  match p.llm with
  | none => .error "RAG chain not initialized. Call setup_rag_chain() first."
  | some llm =>
    match retrieve_with_scores p question with
    | .error e => .error e
    | .ok (docs, reliable) =>
      if !reliable then
        .ok (fallback_message, [])
      else
        let context := String.intercalate "\n\n" (docs.map (fun d => d.page_content))
        let enhanced_question :=
          if history ≠ "" then
            "Conversation history:\n" ++ history ++ "\n\nCurrent question: " ++ question
          else
            question
        let prompt_text := rag_prompt context enhanced_question
        .ok (llm prompt_text, [prompt_text])

/-- Node 2 of the workflow: `rag_responder` (src/graph_workflow.py lines
99-117), delegating to `answer_with_rag` with the state's query and history. -/
def rag_responder (p : RAGPipeline) (st : GraphState) :
    Except String (GraphState × List String) :=
  match answer_with_rag p st.query st.history with
  | .error e => .error e
  | .ok (response, calls) => .ok ({ st with response := response }, calls)

/-- The fixed escalation message of src/graph_workflow.py lines 132-135. -/
def escalation_message : String :=
  "I\x27m not able to handle this request. Please contact support@techgear.com or call customer support for further assistance."

/-- Node 3 of the workflow: `escalation_handler` (src/graph_workflow.py lines
119-138). -/
def escalation_handler (st : GraphState) : GraphState :=
  { st with response := escalation_message }

/-- Conditional routing `route_query` (src/graph_workflow.py lines 140-155). -/
def route_query (st : GraphState) : String :=
  if st.category = "escalate" then "escalation_handler" else "rag_responder"

/-- One invocation of the compiled graph (src/graph_workflow.py lines
157-190): classifier, then the conditional edge chosen by `route_query`, then
the selected responder node.  Accumulates the prompts sent to the generative
model by all nodes. -/
def graph_invoke (cl : String → String) (p : RAGPipeline) (st : GraphState) :
    Except String (GraphState × List String) :=
  let classified := classify_query cl st
  if route_query classified.1 = "escalation_handler" then
    .ok (escalation_handler classified.1, classified.2)
  else
    match rag_responder p classified.1 with
    | .error e => .error e
    | .ok (st2, gcalls) => .ok (st2, classified.2 ++ gcalls)

/-- Renders a message as `"User: <text>"` or `"Bot: <text>"`
(src/graph_workflow.py lines 208-210). -/
def format_msg (msg : Msg) : String :=
  (if msg.sender = "user" then "User" else "Bot") ++ ": " ++ msg.text

/-- History formatting of `run` (src/graph_workflow.py lines 203-212): keep
only the last 4 messages (Python `history[-4:]`), render each and join with
newlines; an absent or empty history renders as the empty string. -/
def render_history (history : List Msg) : String :=
  if history.isEmpty then ""
  else String.intercalate "\n" ((history.drop (history.length - 4)).map format_msg)

/-- The workflow entry point `run` (src/graph_workflow.py lines 192-228):
formats the history, builds the initial state and invokes the graph, returning
the response, the category, and the accumulated generative-model prompts. -/
def run (cl : String → String) (p : RAGPipeline) (query : String)
    (history : List Msg) : Except String (String × String × List String) :=
  let history_str := render_history history
  let initial_state : GraphState :=
    { query := query, history := history_str, category := "", response := "" }
  match graph_invoke cl p initial_state with
  | .error e => .error e
  | .ok (final_state, calls) => .ok (final_state.response, final_state.category, calls)

/-- C1: every query containing a configured risk keyword (case-insensitive
substring match) is classified `escalate` by the rule phase, and the
generative model is not invoked (the prompt list is empty). -/
theorem C1_risk_keyword_escalates_without_model (llm : String → String)
    (st : GraphState) (kw : String) (hmem : kw ∈ out_of_scope_keywords)
    (hsub : strContains (strToLower st.query) kw = true) :
    classify_query llm st = ({ st with category := "escalate" }, []) := by
  have hany :
      out_of_scope_keywords.any (fun keyword => strContains (strToLower st.query) keyword)
        = true :=
    List.any_eq_true.mpr ⟨kw, hmem, hsub⟩
  simp [classify_query, hany]

theorem C1_witness :
    classify_query (fun _ => "products")
        { query := "I will SUE you", history := "", category := "", response := "" } =
      ({ query := "I will SUE you", history := "", category := "escalate", response := "" },
        []) :=
  C1_risk_keyword_escalates_without_model (fun _ => "products")
    { query := "I will SUE you", history := "", category := "", response := "" }
    "sue" (by decide) (by decide)

/-- C2: for every threshold in [0,1] the retrieval gate accepts iff the
candidate list is non-empty and the top-ranked candidate's score is at least
the threshold; the empty list is always rejected; and `retrieve_with_scores`
on an initialized store returns all retrieved documents paired with this
gate's verdict at the configured threshold. -/
theorem C2_gate_reliable_iff (threshold : ℚ) (_h0 : 0 ≤ threshold)
    (_h1 : threshold ≤ 1) (cands : List (Doc × ℚ))
    (store : String → List (Doc × ℚ)) (ml : Option (String → String))
    (q : String) :
    (has_reliable_context threshold cands = true ↔
      cands ≠ [] ∧ threshold ≤ (cands.headI).2) ∧
    has_reliable_context threshold [] = false ∧
    retrieve_with_scores { vectorstore := some store, llm := ml } q =
      .ok ((store q).map (fun ds => ds.1),
        has_reliable_context RELEVANCE_THRESHOLD (store q)) := by
  refine ⟨?_, by simp [has_reliable_context], rfl⟩
  cases cands with
  | nil => simp [has_reliable_context]
  | cons c cs => simp [has_reliable_context]

theorem C2_witness :
    (has_reliable_context (mkRat 1 2) [({ page_content := "a" }, mkRat 3 4)] = true ↔
      [({ page_content := "a" }, mkRat 3 4)] ≠ ([] : List (Doc × ℚ)) ∧
        mkRat 1 2 ≤ (([({ page_content := "a" }, mkRat 3 4)] : List (Doc × ℚ)).headI).2) ∧
    has_reliable_context (mkRat 1 2) [] = false ∧
    retrieve_with_scores
        { vectorstore := some (fun _ => [({ page_content := "a" }, mkRat 3 4)]), llm := none }
        "q" =
      .ok ([{ page_content := "a" }],
        has_reliable_context RELEVANCE_THRESHOLD [({ page_content := "a" }, mkRat 3 4)]) :=
  C2_gate_reliable_iff (mkRat 1 2) (by decide) (by decide)
    [({ page_content := "a" }, mkRat 3 4)]
    (fun _ => [({ page_content := "a" }, mkRat 3 4)]) none "q"

/-- C3: the category produced by `classify_query` always lies in the closed
set of the four valid categories, and whenever the rule phase does not match
and the model's output, trimmed and lower-cased, is not one of the four valid
strings, the category is `escalate`. -/
theorem C3_category_closed_set (llm : String → String) (st : GraphState)
    (hrule :
      out_of_scope_keywords.any (fun keyword => strContains (strToLower st.query) keyword)
        = false)
    (hinvalid : strToLower (strTrim (llm (classification_prompt st.query))) ∉ valid_categories) :
    (classify_query llm st).1.category = "escalate" ∧
    ∀ (llm2 : String → String) (st2 : GraphState),
      (classify_query llm2 st2).1.category ∈ valid_categories := by
  constructor
  · simp [classify_query, hrule, hinvalid]
  · intro llm2 st2
    simp only [classify_query]
    split
    · simp [valid_categories]
    · split
      next hmem => simpa using hmem
      next => simp [valid_categories]

theorem C3_witness :
    (classify_query (fun _ => " Banana ")
        { query := "hi", history := "", category := "", response := "" }).1.category
      = "escalate" ∧
    (classify_query (fun _ => "Products")
        { query := "hi", history := "", category := "", response := "" }).1.category
      ∈ valid_categories :=
  ⟨(C3_category_closed_set (fun _ => " Banana ")
      { query := "hi", history := "", category := "", response := "" }
      (by decide) (by decide)).1,
   (C3_category_closed_set (fun _ => " Banana ")
      { query := "hi", history := "", category := "", response := "" }
      (by decide) (by decide)).2 (fun _ => "Products")
      { query := "hi", history := "", category := "", response := "" }⟩

/-- C4: when the retrieval gate rejects, `answer_with_rag` returns the fixed
fallback message naming support@techgear.com, with no generative-model call
(empty prompt list). -/
theorem C4_fallback_without_model (store : String → List (Doc × ℚ))
    (llm : String → String) (question history : String)
    (hgate : has_reliable_context RELEVANCE_THRESHOLD (store question) = false) :
    answer_with_rag { vectorstore := some store, llm := some llm } question history =
      .ok (fallback_message, []) ∧
    strContains fallback_message "support@techgear.com" = true := by
  refine ⟨?_, by decide⟩
  simp [answer_with_rag, retrieve_with_scores, hgate]

theorem C4_witness :
    answer_with_rag
        { vectorstore := some (fun _ => []), llm := some (fun _ => "model text") }
        "anything" "" =
      .ok (fallback_message, []) ∧
    strContains fallback_message "support@techgear.com" = true :=
  C4_fallback_without_model (fun _ => []) (fun _ => "model text") "anything" ""
    (by decide)

/-- C5: routing depends on the category field only — two states agreeing on
category route identically — and it sends `escalate` to the escalation node,
whose response is the fixed escalation message, and every other category to
the RAG responder node. -/
theorem C5_routing_pure_in_category (st st2 : GraphState)
    (h : st2.category = st.category) :
    route_query st2 = route_query st ∧
    route_query st =
      (if st.category = "escalate" then "escalation_handler" else "rag_responder") ∧
    (escalation_handler st).response = escalation_message := by
  refine ⟨?_, rfl, rfl⟩
  simp [route_query, h]

theorem C5_witness :
    route_query { query := "x", history := "y", category := "escalate", response := "z" } =
      route_query { query := "a", history := "b", category := "escalate", response := "c" } ∧
    route_query { query := "a", history := "b", category := "escalate", response := "c" } =
      (if ("escalate" : String) = "escalate" then "escalation_handler" else "rag_responder") ∧
    (escalation_handler
        { query := "a", history := "b", category := "escalate", response := "c" }).response =
      escalation_message :=
  C5_routing_pure_in_category
    { query := "a", history := "b", category := "escalate", response := "c" }
    { query := "x", history := "y", category := "escalate", response := "z" } rfl

/-- C6: the rendered history consists of exactly the last `min N 4` turns in
their original order, each formatted by `format_msg`, joined by single
newlines.  The suffix of that length is unique, so this characterizes the
rendering for every caller-supplied history. -/
theorem C6_history_last_four (pre suf : List Msg)
    (h : suf.length = min (pre ++ suf).length 4) :
    render_history (pre ++ suf) = String.intercalate "\n" (suf.map format_msg) := by
  by_cases hnil : pre ++ suf = []
  · have hs : suf = [] := (List.append_eq_nil.mp hnil).2
    have hp : pre = [] := (List.append_eq_nil.mp hnil).1
    subst hs; subst hp
    rfl
  · have hlen : (pre ++ suf).length = pre.length + suf.length := by simp
    have hdrop : (pre ++ suf).drop ((pre ++ suf).length - 4) = suf := by
      rw [hlen] at h ⊢
      rcases le_or_lt (pre.length + suf.length) 4 with hle | hlt
      · rw [Nat.min_eq_left hle] at h
        have hp0 : pre.length = 0 := by omega
        have hp : pre = [] := List.eq_nil_of_length_eq_zero hp0
        subst hp
        have hz : suf.length - 4 = 0 := by simp at hle ⊢; omega
        simp [hz]
      · rw [Nat.min_eq_right (by omega)] at h
        have hpl : pre.length + suf.length - 4 = pre.length := by omega
        rw [hpl]
        exact List.drop_left pre suf
    have hne : (pre ++ suf).isEmpty = false := by simp [List.isEmpty_iff, hnil]
    simp only [render_history, hne, Bool.false_eq_true, if_false]
    rw [hdrop]

theorem C6_witness :
    render_history
        [{ sender := "user", text := "a" }, { sender := "bot", text := "b" },
         { sender := "user", text := "c" }, { sender := "bot", text := "d" },
         { sender := "user", text := "e" }, { sender := "bot", text := "f" }] =
      String.intercalate "\n"
        ([{ sender := "user", text := "c" }, { sender := "bot", text := "d" },
          { sender := "user", text := "e" },
          ({ sender := "bot", text := "f" } : Msg)].map format_msg) :=
  C6_history_last_four
    [{ sender := "user", text := "a" }, { sender := "bot", text := "b" }]
    [{ sender := "user", text := "c" }, { sender := "bot", text := "d" },
     { sender := "user", text := "e" }, { sender := "bot", text := "f" }]
    (by decide)

/-- C7: when the gate accepts, the whole retrieved candidate list is passed
through — the context handed to the model is the page contents of all
candidates, in ranked order, joined by a blank line — and the model is
invoked exactly once on the resulting prompt. -/
theorem C7_context_concatenates_all_candidates
    (store : String → List (Doc × ℚ)) (llm : String → String)
    (question history : String)
    (hgate : has_reliable_context RELEVANCE_THRESHOLD (store question) = true) :
    answer_with_rag { vectorstore := some store, llm := some llm } question history =
      .ok
        (llm (rag_prompt
          (String.intercalate "\n\n"
            ((store question).map (fun ds => ds.1.page_content)))
          (if history ≠ "" then
            "Conversation history:\n" ++ history ++ "\n\nCurrent question: " ++ question
          else question)),
        [rag_prompt
          (String.intercalate "\n\n"
            ((store question).map (fun ds => ds.1.page_content)))
          (if history ≠ "" then
            "Conversation history:\n" ++ history ++ "\n\nCurrent question: " ++ question
          else question)]) := by
  simp [answer_with_rag, retrieve_with_scores, hgate, List.map_map]
  exact ⟨rfl, rfl⟩

theorem C7_witness :
    answer_with_rag
        { vectorstore :=
            some (fun _ => [({ page_content := "A" }, 1), ({ page_content := "B" }, 0)]),
          llm := some (fun _ => "ans") } "q" "" =
      .ok ("ans", [rag_prompt "A\n\nB" "q"]) :=
  C7_context_concatenates_all_candidates
    (fun _ => [({ page_content := "A" }, 1), ({ page_content := "B" }, 0)])
    (fun _ => "ans") "q" "" (by decide)

/-- C9: an uninitialized vector store makes `retrieve_with_scores` fail with
the not-initialized error for every question and regardless of the model
component, and an uninitialized model makes `answer_with_rag` fail with the
not-initialized error for every question and history, regardless of the
vector store — in both cases without consulting either oracle. -/
theorem C9_not_initialized_errors (question history : String)
    (vs : Option (String → List (Doc × ℚ))) (ml : Option (String → String)) :
    retrieve_with_scores { vectorstore := none, llm := ml } question =
      .error "Vector store not initialized." ∧
    answer_with_rag { vectorstore := vs, llm := none } question history =
      .error "RAG chain not initialized. Call setup_rag_chain() first." :=
  ⟨rfl, rfl⟩

/-- Inversion for a successful `rag_responder` step: it is exactly a
successful `answer_with_rag` call whose text is written into the response
field, all other fields untouched. -/
theorem rag_responder_ok_inv (p : RAGPipeline) (st st2 : GraphState)
    (calls : List String) (h : rag_responder p st = .ok (st2, calls)) :
    ∃ r, answer_with_rag p st.query st.history = .ok (r, calls) ∧
      st2 = { st with response := r } := by
  unfold rag_responder at h
  cases ha : answer_with_rag p st.query st.history with
  | error e => rw [ha] at h; simp at h
  | ok rc =>
    rw [ha] at h
    obtain ⟨r, cs⟩ := rc
    simp at h
    exact ⟨r, by rw [h.2], h.1.symm⟩

/-- Shape of every successful `answer_with_rag` result: the response is the
fixed fallback message or the generative model's text on some prompt. -/
theorem answer_with_rag_ok_shape (p : RAGPipeline)
    (question history response : String) (calls : List String)
    (h : answer_with_rag p question history = .ok (response, calls)) :
    response = fallback_message ∨
      ∃ l prompt, p.llm = some l ∧ response = l prompt := by
  unfold answer_with_rag at h
  cases hllm : p.llm with
  | none => rw [hllm] at h; simp at h
  | some l =>
    rw [hllm] at h
    cases hr : retrieve_with_scores p question with
    | error e => rw [hr] at h; simp at h
    | ok dr =>
      rw [hr] at h
      obtain ⟨docs, reliable⟩ := dr
      cases reliable with
      | false =>
        simp at h
        exact Or.inl h.1.symm
      | true =>
        simp at h
        exact Or.inr ⟨l, _, rfl, h.1.symm⟩

/-- C8 counterexample: a successful `run` whose response is the empty string.
The classifier model answers `products`, retrieval is reliable, and the
generative model returns the empty string, which `run` returns verbatim. -/
theorem C8_counterexample :
    run (fun _ => "products")
        { vectorstore := some (fun _ => [({ page_content := "c" }, 1)]),
          llm := some (fun _ => "") } "q" [] =
      .ok ("", "products", [classification_prompt "q", rag_prompt "c" "q"]) := by
  rfl

/-- C8 (amended): on every successful `run`, the response is the fixed
escalation message, the fixed fallback message, or the generative model's
text verbatim; hence it is non-empty whenever the model never returns the
empty string.  (The code does not enforce non-emptiness of the model's own
text.) -/
theorem C8_response_nonempty_unless_model_empty (cl : String → String)
    (p : RAGPipeline) (query : String) (history : List Msg)
    (res : String × String × List String)
    (hrun : run cl p query history = .ok res)
    (hm : ∀ l, p.llm = some l → ∀ prompt, l prompt ≠ "") :
    res.1 ≠ "" := by
  simp only [run] at hrun
  cases hg : graph_invoke cl p
      { query := query, history := render_history history, category := "",
        response := "" } with
  | error e => rw [hg] at hrun; simp at hrun
  | ok fc =>
    rw [hg] at hrun
    obtain ⟨final, calls⟩ := fc
    simp at hrun
    have hres : res.1 = final.response := by rw [← hrun]
    rw [hres]
    simp only [graph_invoke] at hg
    by_cases hroute :
        route_query (classify_query cl
          { query := query, history := render_history history, category := "",
            response := "" }).1 = "escalation_handler"
    · rw [if_pos hroute] at hg
      simp at hg
      rw [← hg.1]
      exact (by decide : escalation_message ≠ "")
    · rw [if_neg hroute] at hg
      cases hr : rag_responder p (classify_query cl
          { query := query, history := render_history history, category := "",
            response := "" }).1 with
      | error e => rw [hr] at hg; simp at hg
      | ok pr =>
        rw [hr] at hg
        obtain ⟨st2, gcalls⟩ := pr
        simp at hg
        obtain ⟨r, ha, hst2⟩ := rag_responder_ok_inv p _ st2 gcalls hr
        rcases answer_with_rag_ok_shape p _ _ _ _ ha with hf | ⟨l, prompt, hl, he⟩
        · rw [← hg.1, hst2, hf]
          exact (by decide : fallback_message ≠ "")
        · rw [← hg.1, hst2, he]
          exact hm l hl prompt

theorem C8_witness : escalation_message ≠ "" :=
  C8_response_nonempty_unless_model_empty (fun _ => "escalate")
    { vectorstore := none, llm := none } "hello" []
    (escalation_message, "escalate", [classification_prompt "hello"]) rfl
    (fun _ hl => nomatch hl)

/-- C10: each stage writes only its designated output field — the classifier
leaves query, history and response unchanged, a successful RAG responder step
leaves query, history and category unchanged, and the escalation handler
leaves query, history and category unchanged. -/
theorem C10_stage_frame (cl : String → String) (p : RAGPipeline)
    (st st2 : GraphState) (calls : List String)
    (h : rag_responder p st = .ok (st2, calls)) :
    ((classify_query cl st).1.query = st.query ∧
      (classify_query cl st).1.history = st.history ∧
      (classify_query cl st).1.response = st.response) ∧
    (st2.query = st.query ∧ st2.history = st.history ∧ st2.category = st.category) ∧
    ((escalation_handler st).query = st.query ∧
      (escalation_handler st).history = st.history ∧
      (escalation_handler st).category = st.category) := by
  refine ⟨?_, ?_, rfl, rfl, rfl⟩
  · simp only [classify_query]
    split
    · exact ⟨rfl, rfl, rfl⟩
    · exact ⟨rfl, rfl, rfl⟩
  · obtain ⟨r, _, hst2⟩ := rag_responder_ok_inv p st st2 calls h
    rw [hst2]
    exact ⟨rfl, rfl, rfl⟩

theorem C10_witness :
    ((classify_query (fun _ => "general")
        { query := "q", history := "h", category := "products", response := "r0" }).1.query
          = "q" ∧
      (classify_query (fun _ => "general")
        { query := "q", history := "h", category := "products", response := "r0" }).1.history
          = "h" ∧
      (classify_query (fun _ => "general")
        { query := "q", history := "h", category := "products", response := "r0" }).1.response
          = "r0") ∧
    (("q" : String) = "q" ∧ ("h" : String) = "h" ∧ ("products" : String) = "products") ∧
    ((escalation_handler
        { query := "q", history := "h", category := "products", response := "r0" }).query
          = "q" ∧
      (escalation_handler
        { query := "q", history := "h", category := "products", response := "r0" }).history
          = "h" ∧
      (escalation_handler
        { query := "q", history := "h", category := "products", response := "r0" }).category
          = "products") :=
  C10_stage_frame (fun _ => "general")
    { vectorstore := some (fun _ => [({ page_content := "kb" }, 1)]),
      llm := some (fun _ => "ans") }
    { query := "q", history := "h", category := "products", response := "r0" }
    { query := "q", history := "h", category := "products", response := "ans" }
    [rag_prompt "kb" "Conversation history:\nh\n\nCurrent question: q"] rfl

end TechGearSpec

